import Mathlib

/-!
Shallow embedding of `src/app.py` (extractbio): a four-stage GEO/PubMed
fetch–extract–filter pipeline.  External effects (HTTP fetches, HTML parsing
by BeautifulSoup) are passed in as oracle functions; everything the Python
code computes itself (regex search, strptime, dedup/sort, batching, retry
loops, the pandas date-range filter) is translated directly.
-/

/-- A Python `datetime.date`-like value; comparison is lexicographic on
(year, month, day), as in Python. -/
structure PyDate where
  year : Nat
  month : Nat
  day : Nat
deriving DecidableEq, Repr

/-- Python `date` ordering (lexicographic). -/
def pdle (a b : PyDate) : Bool :=
  decide (a.year < b.year) ||
    (decide (a.year = b.year) &&
      (decide (a.month < b.month) ||
        (decide (a.month = b.month) && decide (a.day ≤ b.day))))

/-- A cell of the `Publication_Date` column.  `parsed` is a real date,
`missing` is Python `None`, `nat` is pandas `NaT` (what `None` becomes after
`pd.to_datetime(..., errors='coerce').dt.date`). -/
inductive PubDateCell where
  | parsed (d : PyDate)
  | missing
  | nat
deriving DecidableEq, Repr

/-- A row of the `nct_data` table produced by `process_pubmed_ids`:
keys `Pubmed_ID`, `NCT Number`, `Publication_Date`. -/
structure Detail where
  pubmedId : String
  nctNumber : String
  publicationDate : PubDateCell
deriving DecidableEq, Repr

/-- `pd.to_datetime(cell, errors='coerce').dt.date` on one cell: a date is
unchanged, `None` and `NaT` both become `NaT`; no value ever raises. -/
def coerceCell : PubDateCell → PubDateCell
  | PubDateCell.parsed d => PubDateCell.parsed d
  | PubDateCell.missing => PubDateCell.nat
  | PubDateCell.nat => PubDateCell.nat

/-- Column-wise coercion of one row (only `Publication_Date` is touched,
line 170 of `app.py`). -/
def coerceRow (r : Detail) : Detail :=
  { r with publicationDate := coerceCell r.publicationDate }

/-- ASCII digit test (`\d` in the source regexes, ASCII scope). -/
def isDig (c : Char) : Bool := c.isDigit

/-- `df['NCT Number'].str.match(r'^NCT\d+$', na=False)` on one string:
"NCT" followed by one or more digits, consuming the whole string. -/
def matchNCTfull (s : String) : Bool :=
  match s.data with
  | 'N' :: 'C' :: 'T' :: rest => !rest.isEmpty && rest.all isDig
  | _ => false

/-- The row mask of `filter_nct` (app.py lines 171-174): date present
(after coercion) and within `[sd, ed]`, and NCT Number fully matches. -/
def nctPred (sd ed : PyDate) (r : Detail) : Bool :=
  (match r.publicationDate with
   | PubDateCell.parsed d => pdle sd d && pdle d ed
   | _ => false) && matchNCTfull r.nctNumber

/-- `filter_nct(df, start_date, end_date)` (app.py lines 169-174).
The first component is the state of `df` after the call (the
`Publication_Date` column is reassigned in place on line 170, so the input
frame is mutated); the second is the returned filtered view. -/
def filter_nct (df : List Detail) (sd ed : PyDate) : List Detail × List Detail :=
  let df2 := df.map coerceRow
  (df2, df2.filter (nctPred sd ed))

/-- One position of `re.search(r'NCT\d{8}', text)`: does the pattern match
at the head of the character list? -/
def nctHead : List Char → Bool
  | 'N' :: 'C' :: 'T' :: rest => ((rest.take 8).length == 8) && (rest.take 8).all isDig
  | _ => false

/-- `re.search(r'NCT\d{8}', text)`: leftmost match, returned as the matched
11-character substring. -/
def searchNCT : List Char → Option String
  | [] => none
  | c :: cs =>
    if nctHead (c :: cs) then some (String.mk ((c :: cs).take 11))
    else searchNCT cs

/-- The observable content of a fetched PubMed page after BeautifulSoup
parsing: the text of the `span.cit` citation element when present, and the
rendered page text `soup.get_text(" ", strip=True)`. -/
structure Page where
  cit : Option String
  text : String

/-- `search_nct_in_abstract(html)` (app.py lines 135-139). -/
def search_nct_in_abstract (page : Page) : Option String :=
  searchNCT page.text.data

/-- Python `\w` word character (ASCII scope). -/
def isWordC (c : Char) : Bool := c.isAlphanum || c == '_'

/-- One position of `re.search(r'\d{4} \w{3} \d{1,2}', text)`: try to match
at the head; the trailing `\d{1,2}` is greedy (two digits when available). -/
def dateishHead : List Char → Option (List Char)
  | a :: b :: c :: d :: ' ' :: e :: f :: g :: ' ' :: h :: rest =>
    if [a, b, c, d].all isDig && [e, f, g].all isWordC && isDig h then
      match rest with
      | i :: _ =>
        if isDig i then some [a, b, c, d, ' ', e, f, g, ' ', h, i]
        else some [a, b, c, d, ' ', e, f, g, ' ', h]
      | [] => some [a, b, c, d, ' ', e, f, g, ' ', h]
    else none
  | _ => none

/-- Leftmost match of `\d{4} \w{3} \d{1,2}`. -/
def searchDateish : List Char → Option (List Char)
  | [] => none
  | c :: cs =>
    match dateishHead (c :: cs) with
    | some m => some m
    | none => searchDateish cs

/-- One position of `re.search(r'\d{4}', text)`. -/
def yearHead : List Char → Option (List Char)
  | a :: b :: c :: d :: _ =>
    if [a, b, c, d].all isDig then some [a, b, c, d] else none
  | _ => none

/-- Leftmost match of `\d{4}`. -/
def searchYear : List Char → Option (List Char)
  | [] => none
  | c :: cs =>
    match yearHead (c :: cs) with
    | some m => some m
    | none => searchYear cs

/-- Digits of a numeral to its value. -/
def digitsToNat (cs : List Char) : Nat :=
  cs.foldl (fun n c => n * 10 + (c.toNat - 48)) 0

/-- Split a character list at single spaces (the whitespace separator of the
`"%Y %b %d"` format; the strings fed to `strptime` here come from the two
regexes above, whose separators are single literal spaces). -/
def splitSp : List Char → List (List Char)
  | [] => [[]]
  | ' ' :: cs => [] :: splitSp cs
  | c :: cs =>
    match splitSp cs with
    | [] => [[c]]
    | w :: ws => (c :: w) :: ws

/-- Python `%b`: a case-insensitive English month abbreviation. -/
def monthOfAbbr (cs : List Char) : Option Nat :=
  let l := cs.map Char.toLower
  if l == ['j', 'a', 'n'] then some 1
  else if l == ['f', 'e', 'b'] then some 2
  else if l == ['m', 'a', 'r'] then some 3
  else if l == ['a', 'p', 'r'] then some 4
  else if l == ['m', 'a', 'y'] then some 5
  else if l == ['j', 'u', 'n'] then some 6
  else if l == ['j', 'u', 'l'] then some 7
  else if l == ['a', 'u', 'g'] then some 8
  else if l == ['s', 'e', 'p'] then some 9
  else if l == ['o', 'c', 't'] then some 10
  else if l == ['n', 'o', 'v'] then some 11
  else if l == ['d', 'e', 'c'] then some 12
  else none

def isLeap (y : Nat) : Bool :=
  (y % 4 == 0) && (!(y % 100 == 0) || (y % 400 == 0))

def daysInMonth (y m : Nat) : Nat :=
  if m == 2 then (if isLeap y then 29 else 28)
  else if m == 4 || m == 6 || m == 9 || m == 11 then 30
  else 31

/-- Python `%Y`: one to four digits, and `datetime` requires year ≥ 1. -/
def parseYearChars (cs : List Char) : Option Nat :=
  if (cs.length == 0) || decide (4 < cs.length) || !cs.all isDig then none
  else if digitsToNat cs == 0 then none
  else some (digitsToNat cs)

/-- Python `%d`: one or two digits, validated against the month length. -/
def parseDayChars (y m : Nat) (cs : List Char) : Option Nat :=
  if (cs.length == 0) || decide (2 < cs.length) || !cs.all isDig then none
  else
    let d := digitsToNat cs
    if (d == 0) || decide (daysInMonth y m < d) then none else some d

/-- `datetime.strptime(s, "%Y %b %d")`, as `Option` instead of raising. -/
def strptime_Ybd (s : String) : Option PyDate :=
  match splitSp s.data with
  | [ys, ms, ds] =>
    match parseYearChars ys with
    | none => none
    | some y =>
      match monthOfAbbr ms with
      | none => none
      | some m =>
        match parseDayChars y m ds with
        | none => none
        | some d => some ⟨y, m, d⟩
  | _ => none

/-- `datetime.strptime(s, "%Y")`: a bare year, giving January 1st. -/
def strptime_Y (s : String) : Option PyDate :=
  match parseYearChars s.data with
  | some y => some ⟨y, 1, 1⟩
  | none => none

/-- `get_publication_date(html)` (app.py lines 119-133): locate `span.cit`;
search its text for `\d{4} \w{3} \d{1,2}` falling back to `\d{4}`; parse the
match with `"%Y %b %d"` falling back to `"%Y"`; any failure gives `none`. -/
def get_publication_date (page : Page) : Option PyDate :=
  match page.cit with
  | none => none
  | some t =>
    match
      (match searchDateish t.data with
       | some m => some m
       | none => searchYear t.data) with
    | none => none
    | some m =>
      let ms := String.mk m
      match strptime_Ybd ms with
      | some dt => some dt
      | none => strptime_Y ms

/-- One iteration of the inner loop of `process_pubmed_ids` (app.py lines
151-159): fetch the page (oracle `fetchHtml`, `none` = fetch failure),
extract the trial id and publication date. -/
def processOne (fetchHtml : String → Option Page) (pid : String) : Detail :=
  match fetchHtml pid with
  | none => ⟨pid, "NCT Not Found", PubDateCell.missing⟩
  | some page =>
    let nct :=
      match search_nct_in_abstract page with
      | some s => s
      | none => "NCT Not Found"
    match get_publication_date page with
    | some dt => ⟨pid, nct, PubDateCell.parsed dt⟩
    | none => ⟨pid, nct, PubDateCell.missing⟩

/-- A row of the `pubmed_data` table: keys `accession`, `Pubmed_ID`
(the comma-joined literature ids for that accession). -/
structure Link where
  accession : String
  pubmedId : String
deriving DecidableEq, Repr

/-- `s.split(',')` on the underlying characters. -/
def splitComma : List Char → List (List Char)
  | [] => [[]]
  | ',' :: cs => [] :: splitComma cs
  | c :: cs =>
    match splitComma cs with
    | [] => [[c]]
    | w :: ws => (c :: w) :: ws

/-- Python `str.strip()`: drop whitespace from both ends. -/
def trimChars (cs : List Char) : List Char :=
  ((cs.dropWhile Char.isWhitespace).reverse.dropWhile Char.isWhitespace).reverse

/-- Python string comparison: lexicographic on code points. -/
def lexLe : List Char → List Char → Bool
  | [], _ => true
  | _ :: _, [] => false
  | a :: as, b :: bs =>
    if a.toNat = b.toNat then lexLe as bs else decide (a.toNat < b.toNat)

def strLe (a b : String) : Bool := lexLe a.data b.data

instance strLeDecRel : DecidableRel (fun a b : String => strLe a b = true) :=
  fun a b => Bool.decEq (strLe a b) true

/-- The generator of app.py lines 142-143: entries with an empty
`Pubmed_ID` contribute nothing; others are split at `","` and stripped. -/
def flattenIds : List Link → List String
  | [] => []
  | e :: rest =>
    (if e.pubmedId = "" then []
     else (splitComma e.pubmedId.data).map (fun w => String.mk (trimChars w))) ++
      flattenIds rest

/-- `sorted(set(...))` of app.py line 142: deduplicate, then enumerate in
ascending string order (on a duplicate-free input the ascending enumeration
is unique, so any correct sort models Python's `sorted`). -/
def pubmedIdsOf (metadata : List Link) : List String :=
  List.insertionSort (fun a b => strLe a b = true) (flattenIds metadata).dedup

/-- `ids[i:i+n]` slicing of app.py lines 149-150, with the input list also
serving as structural fuel (its length bounds the number of batches).
Python raises for `n = 0`; theorems about batching assume `0 < n`. -/
def chunksOfAux {α : Type} (n : Nat) : List α → List α → List (List α)
  | _, [] => []
  | [], _ :: _ => []
  | _ :: fs, x :: xs => (x :: xs.take (n - 1)) :: chunksOfAux n fs (xs.drop (n - 1))

def chunksOf {α : Type} (n : Nat) (l : List α) : List (List α) :=
  chunksOfAux n l l

/-- The batch loop of `process_pubmed_ids`: results of all batches are
appended in order. -/
def process_batches (fetchHtml : String → Option Page) : List (List String) → List Detail
  | [] => []
  | b :: bs => b.map (processOne fetchHtml) ++ process_batches fetchHtml bs

/-- `process_pubmed_ids(metadata, batch_size)` (app.py lines 141-167). -/
def process_pubmed_ids (fetchHtml : String → Option Page) (metadata : List Link)
    (batchSize : Nat) : List Detail :=
  process_batches fetchHtml (chunksOf batchSize (pubmedIdsOf metadata))

/-- The retry loop of `fetch_pubmed_data` (app.py lines 79-94).  `get` is
the per-attempt HTTP fetch oracle (`none` = connection-level failure),
`extract` the BeautifulSoup extraction of `pubmed/(\d+)` hrefs from a
successful page.  Returns the record and the list of backoff delays slept
(`2 ** attempt`, slept on every failed attempt, the last included). -/
def fetchPMGo (get : Nat → Option String) (extract : String → List String)
    (acc : String) : Nat → Nat → Link × List Nat
  | _, 0 => (⟨acc, ""⟩, [])
  | attempt, r + 1 =>
    match get attempt with
    | some html => (⟨acc, String.intercalate ", " (extract html)⟩, [])
    | none =>
      if r = 0 then (⟨acc, ""⟩, [2 ^ attempt])
      else
        let p := fetchPMGo get extract acc (attempt + 1) r
        (p.1, 2 ^ attempt :: p.2)

/-- `fetch_pubmed_data(accession)`: three attempts starting at attempt 0. -/
def fetch_pubmed_data (get : Nat → Option String) (extract : String → List String)
    (acc : String) : Link × List Nat :=
  fetchPMGo get extract acc 0 3

/-- `fetch_pubmed_ids_from_geo(accession_list)` (app.py lines 96-108):
`ThreadPoolExecutor.map` yields results in input order regardless of
completion order, so the collected list maps each accession in order. -/
def fetch_pubmed_ids_from_geo (get : String → Nat → Option String)
    (extract : String → List String) (accs : List String) : List Link :=
  accs.map (fun a => (fetch_pubmed_data (get a) extract a).1)

/-- Outcome of one `Entrez.esearch` attempt: success with ids and count,
a transient `RuntimeError`, or an unexpected exception. -/
inductive SOutcome where
  | ok (ids : List String) (count : Nat)
  | transient
  | fatal

/-- The retry loop of `search_geo_accessions` (app.py lines 22-35): on a
transient failure sleep `delay` (recorded) and reissue the same request; on
an unexpected error break; exhausting the attempts returns `([], 0)`. -/
def searchGo (att : Nat → SOutcome) (delay : Nat) : Nat → Nat → (List String × Nat) × List Nat
  | _, 0 => (([], 0), [])
  | attempt, r + 1 =>
    match att attempt with
    | SOutcome.ok ids c => ((ids, c), [])
    | SOutcome.fatal => (([], 0), [])
    | SOutcome.transient =>
      let p := searchGo att delay (attempt + 1) r
      (p.1, delay :: p.2)

/-- `search_geo_accessions(...)` with its defaults `retries=3, delay=2`. -/
def search_geo_accessions (att : Nat → SOutcome) : (List String × Nat) × List Nat :=
  searchGo att 2 0 3

/-- The `while True` loop of `fetch_all_geo_accessions` (app.py lines
58-74), with explicit fuel: `none` means the loop did not terminate within
`fuel` iterations.  `search` maps an offset to `(ids, total_count)`;
`resolve` is `fetch_geo_accession_details`; the accession set is a
deduplicating union (Python accumulates into a `set`). -/
def fetch_all_geo_accessions (search : Nat → List String × Nat)
    (resolve : List String → List String) (pageSize : Nat) :
    Nat → Nat → List String → Option (List String)
  | 0, _, _ => none
  | fuel + 1, retstart, acc =>
    let p := search retstart
    if p.1.isEmpty then some acc
    else
      let acc2 := acc ∪ resolve p.1
      if p.2 ≤ retstart + pageSize then some acc2
      else fetch_all_geo_accessions search resolve pageSize fuel (retstart + pageSize) acc2

/-- A pandas DataFrame built from a list of records: `pd.DataFrame(rows)`
has the record keys as columns only when `rows` is non-empty. -/
structure Frame where
  hasCols : Bool
  rows : List Detail

def mkFrame (rows : List Detail) : Frame :=
  ⟨!rows.isEmpty, rows⟩

/-- `filter_nct` at the frame level: reading `df["Publication_Date"]` on a
frame without that column raises `KeyError`. -/
def filter_nct_frame (f : Frame) (sd ed : PyDate) : Except String (Frame × List Detail) :=
  if f.hasCols then
    let p := filter_nct f.rows sd ed
    Except.ok (⟨true, p.1⟩, p.2)
  else Except.error "KeyError: Publication_Date"

/-- The tables the Run Search handler materializes before export. -/
structure PipelineOut where
  geo : List String
  pubmed : List Link
  nct : List Detail
  filtered : List Detail

/-- The `Run Search` button handler (app.py lines 181-222): guard on the
keyword, run the four stages, then the date-range filter; an uncaught
exception in any stage aborts the run (`Except.error`). -/
def run_search_handler (keyword : String) (att : Nat → Nat → SOutcome)
    (resolve : List String → List String) (linkGet : String → Nat → Option String)
    (extract : String → List String) (fetchHtml : String → Option Page)
    (sd ed : PyDate) (fuel : Nat) : Except String PipelineOut :=
  if keyword = "" then Except.error "Please enter a keyword to search."
  else
    match fetch_all_geo_accessions
        (fun retstart => (search_geo_accessions (att retstart)).1) resolve 100 fuel 0 [] with
    | none => Except.error "paginator exceeded fuel"
    | some accessions =>
      let metadata := fetch_pubmed_ids_from_geo linkGet extract accessions
      let nct := process_pubmed_ids fetchHtml metadata 50
      match filter_nct_frame (mkFrame nct) sd ed with
      | Except.error e => Except.error e
      | Except.ok q => Except.ok ⟨accessions, metadata, nct, q.2⟩

theorem matchNCTfull_ne_sentinel {s : String} (h : matchNCTfull s = true) :
    s ≠ "NCT Not Found" := by
  intro he
  subst he
  simp [matchNCTfull, isDig] at h

/-- Claim C1: a record appears in the output of `filter_nct` iff it is the
coercion of some input record, its publication date is present and lies in
`[startDate, endDate]` inclusive, and its trial id fully matches
`^NCT\d+$`; in particular no output record carries the sentinel
"NCT Not Found" or a missing date.  The second component records that the
date bounds are inclusive (`pdle` is reflexive). -/
theorem filter_nct_spec :
    (∀ (df : List Detail) (sd ed : PyDate) (r : Detail),
      r ∈ (filter_nct df sd ed).2 ↔
        (∃ r0, r0 ∈ df ∧ coerceRow r0 = r) ∧
        (∃ d, r.publicationDate = PubDateCell.parsed d ∧
          pdle sd d = true ∧ pdle d ed = true) ∧
        matchNCTfull r.nctNumber = true ∧
        r.nctNumber ≠ "NCT Not Found" ∧
        r.publicationDate ≠ PubDateCell.missing) ∧
    (∀ d : PyDate, pdle d d = true) := by
  constructor
  · intro df sd ed r
    constructor
    · intro hr
      rw [filter_nct] at hr
      simp only [List.mem_filter, List.mem_map] at hr
      obtain ⟨⟨r0, hr0, hr0e⟩, hpred⟩ := hr
      rw [nctPred, Bool.and_eq_true] at hpred
      obtain ⟨hdate, hnct⟩ := hpred
      cases hc : r.publicationDate with
      | parsed d =>
          rw [hc] at hdate
          simp only [Bool.and_eq_true] at hdate
          exact ⟨⟨r0, hr0, hr0e⟩, ⟨d, rfl, hdate.1, hdate.2⟩, hnct,
            matchNCTfull_ne_sentinel hnct, by simp⟩
      | missing => rw [hc] at hdate; simp at hdate
      | nat => rw [hc] at hdate; simp at hdate
    · rintro ⟨⟨r0, hr0, hr0e⟩, ⟨d, hd, hsd, hde⟩, hnct, -, -⟩
      rw [filter_nct]
      simp only [List.mem_filter, List.mem_map]
      refine ⟨⟨r0, hr0, hr0e⟩, ?_⟩
      simp [nctPred, hd, hsd, hde, hnct]
  · intro d
    simp [pdle]

theorem map_coerceRow_nct (df : List Detail) :
    (df.map coerceRow).map Detail.nctNumber = df.map Detail.nctNumber := by
  induction df with
  | nil => rfl
  | cons r rest ih => simp only [List.map_cons, ih]; rfl

theorem map_coerceRow_pid (df : List Detail) :
    (df.map coerceRow).map Detail.pubmedId = df.map Detail.pubmedId := by
  induction df with
  | nil => rfl
  | cons r rest ih => simp only [List.map_cons, ih]; rfl

theorem map_coerceRow_fixed (df : List Detail)
    (h : df.all (fun r => decide (coerceRow r = r)) = true) :
    df.map coerceRow = df := by
  induction df with
  | nil => rfl
  | cons r rest ih =>
      rw [List.all_cons, Bool.and_eq_true] at h
      rw [List.map_cons, of_decide_eq_true h.1, ih h.2]

/-- Claim C5 counterexample: `filter_nct` does NOT leave its input table
unchanged.  On a table whose single row has `Publication_Date = None`, the
call rewrites that cell to `NaT` (line 170 of `app.py` assigns the coerced
column back onto the input frame), so the table after the call differs from
the table before it. -/
theorem filter_nct_mutates_input :
    (filter_nct [⟨"1", "NCT12345678", PubDateCell.missing⟩]
        ⟨2020, 1, 1⟩ ⟨2025, 1, 1⟩).1 ≠
      [⟨"1", "NCT12345678", PubDateCell.missing⟩] := by decide

/-- Claim C5 amended: `filter_nct` performs no network access and its output
is a filtered view of the (coerced) table, stable in the input's relative
order; but the input table is mutated: its `Publication_Date` column is
overwritten in place with the coerced values (`None`/unparseable become
`NaT`, real dates are unchanged).  Row order and the other columns are
unchanged, and a table all of whose date cells are already coercion fixed
points is left intact. -/
theorem filter_nct_amended :
    ∀ (df : List Detail) (sd ed : PyDate),
      (filter_nct df sd ed).1 = df.map coerceRow ∧
      (filter_nct df sd ed).1.map Detail.nctNumber = df.map Detail.nctNumber ∧
      (filter_nct df sd ed).1.map Detail.pubmedId = df.map Detail.pubmedId ∧
      List.Sublist (filter_nct df sd ed).2 (filter_nct df sd ed).1 ∧
      (df.all (fun r => decide (coerceRow r = r)) = true →
        (filter_nct df sd ed).1 = df) := by
  intro df sd ed
  refine ⟨rfl, ?_, ?_, ?_, ?_⟩
  · exact map_coerceRow_nct df
  · exact map_coerceRow_pid df
  · exact List.filter_sublist _
  · intro h
    exact map_coerceRow_fixed df h

/-- Witness for the amended C5 theorem: on a one-row table whose date cell
is a real date, the hypothesis of the no-mutation clause holds and the
table is unchanged by the call. -/
theorem filter_nct_amended_witness :
    ([⟨"1", "NCT12345678", PubDateCell.parsed ⟨2022, 3, 10⟩⟩].all
        (fun r => decide (coerceRow r = r)) = true) ∧
    (filter_nct [⟨"1", "NCT12345678", PubDateCell.parsed ⟨2022, 3, 10⟩⟩]
        ⟨2022, 1, 1⟩ ⟨2022, 12, 31⟩).1 =
      [⟨"1", "NCT12345678", PubDateCell.parsed ⟨2022, 3, 10⟩⟩] :=
  ⟨by decide, (filter_nct_amended _ _ _).2.2.2.2 (by decide)⟩

theorem searchNCT_none_iff (cs : List Char) :
    searchNCT cs = none ↔ ∀ i, nctHead (cs.drop i) = false := by
  induction cs with
  | nil =>
    constructor
    · intro _ i
      rw [List.drop_nil]
      rfl
    · intro _
      rfl
  | cons c cs ih =>
    cases hcc : nctHead (c :: cs) with
    | true =>
      constructor
      · intro hs
        simp [searchNCT, hcc] at hs
      · intro hall
        exact absurd (hall 0) (by simp [hcc])
    | false =>
      have he : searchNCT (c :: cs) = searchNCT cs := by simp [searchNCT, hcc]
      rw [he, ih]
      constructor
      · intro hall i
        cases i with
        | zero => simpa using hcc
        | succ j => simpa using hall j
      · intro hall i
        simpa using hall (i + 1)

theorem searchNCT_some (cs : List Char) (s : String) (hs : searchNCT cs = some s) :
    ∃ i, nctHead (cs.drop i) = true ∧ s = String.mk ((cs.drop i).take 11) ∧
      ∀ j, j < i → nctHead (cs.drop j) = false := by
  induction cs with
  | nil => simp [searchNCT] at hs
  | cons c cs ih =>
    cases hcc : nctHead (c :: cs) with
    | true =>
      refine ⟨0, by simpa using hcc, ?_, ?_⟩
      · have : some (String.mk ((c :: cs).take 11)) = some s := by
          simpa [searchNCT, hcc] using hs
        simpa using this.symm
      · intro j hj
        exact absurd hj (Nat.not_lt_zero j)
    | false =>
      have hs' : searchNCT cs = some s := by simpa [searchNCT, hcc] using hs
      obtain ⟨i, h1, h2, h3⟩ := ih hs'
      refine ⟨i + 1, by simpa using h1, by simpa using h2, ?_⟩
      intro j hj
      cases j with
      | zero => simpa using hcc
      | succ k => simpa using h3 k (Nat.lt_of_succ_lt_succ hj)

/-- Claim C7: trial id extraction searches the rendered page text for
`NCT` followed by exactly 8 digits and returns the leftmost match; when no
match exists the record's trial id is the sentinel "NCT Not Found"; and a
page containing "NCT12345678" with citation "2022 Mar 10" yields the record
(trialId NCT12345678, publicationDate 2022-03-10). -/
theorem search_nct_spec :
    ∀ cs : List Char,
      (searchNCT cs = none ↔ ∀ i, nctHead (cs.drop i) = false) ∧
      (∀ s, searchNCT cs = some s →
        ∃ i, nctHead (cs.drop i) = true ∧ s = String.mk ((cs.drop i).take 11) ∧
          ∀ j, j < i → nctHead (cs.drop j) = false) ∧
      (∀ (fetchHtml : String → Option Page) (pid : String) (page : Page),
        fetchHtml pid = some page → search_nct_in_abstract page = none →
        (processOne fetchHtml pid).nctNumber = "NCT Not Found") ∧
      (processOne (fun _ => some ⟨some "2022 Mar 10", "Background NCT12345678 results"⟩) "1" =
        ⟨"1", "NCT12345678", PubDateCell.parsed ⟨2022, 3, 10⟩⟩) := by
  intro cs
  refine ⟨searchNCT_none_iff cs, fun s hs => searchNCT_some cs s hs, ?_, by decide⟩
  intro f pid page hf hn
  rw [processOne, hf]
  cases hd : get_publication_date page <;> simp [hn, hd]

/-- Witness for C7: a page with no `NCT` pattern yields the sentinel. -/
theorem search_nct_spec_witness :
    (processOne (fun _ => some ⟨none, "plain text"⟩) "9").nctNumber = "NCT Not Found" :=
  (search_nct_spec []).2.2.1 (fun _ => some ⟨none, "plain text"⟩) "9" ⟨none, "plain text"⟩
    rfl (by decide)

/-- Claim C6: publication date extraction parses the citation element: it
tries the `\d{4} \w{3} \d{1,2}` pattern with format `"%Y %b %d"`, falls back
to a bare `\d{4}` year (which parses to January 1st, e.g. citation "2022"
gives 2022-01-01), and absence of the element, absence of any match, or
failure of both parses yields a missing date instead of an error. -/
theorem get_publication_date_spec :
    (∀ page : Page, page.cit = none → get_publication_date page = none) ∧
    (∀ (page : Page) (t : String), page.cit = some t →
      searchDateish t.data = none → searchYear t.data = none →
      get_publication_date page = none) ∧
    (∀ (page : Page) (t : String) (m : List Char), page.cit = some t →
      searchDateish t.data = none → searchYear t.data = some m →
      get_publication_date page =
        (match strptime_Ybd (String.mk m) with
         | some dt => some dt
         | none => strptime_Y (String.mk m))) ∧
    (get_publication_date ⟨some "2022", ""⟩ = some ⟨2022, 1, 1⟩) ∧
    (get_publication_date ⟨some "2023 Jan 5", ""⟩ = some ⟨2023, 1, 5⟩) ∧
    (get_publication_date ⟨some "2023 Foo 5", ""⟩ = none) := by
  refine ⟨?_, ?_, ?_, by decide, by decide, by decide⟩
  · intro page h
    rw [get_publication_date, h]
  · intro page t hcit h1 h2
    simp [get_publication_date, hcit, h1, h2]
  · intro page t m hcit h1 h2
    simp [get_publication_date, hcit, h1, h2]

/-- Witness for C6: a page with no citation element yields a missing date. -/
theorem get_publication_date_spec_witness :
    get_publication_date ⟨none, "some text"⟩ = none :=
  get_publication_date_spec.1 ⟨none, "some text"⟩ rfl

theorem lexLe_total : ∀ as bs : List Char, lexLe as bs = true ∨ lexLe bs as = true := by
  intro as
  induction as with
  | nil => intro bs; left; rfl
  | cons a as ih =>
    intro bs
    cases bs with
    | nil => right; rfl
    | cons b bs =>
      by_cases hab : a.toNat = b.toNat
      · rcases ih bs with h | h
        · left; simpa [lexLe, hab] using h
        · right; simpa [lexLe, hab.symm] using h
      · by_cases hlt : a.toNat < b.toNat
        · left; simp [lexLe, hab, hlt]
        · right
          have hba : b.toNat ≠ a.toNat := fun he => hab he.symm
          have hblt : b.toNat < a.toNat := by omega
          simp [lexLe, hba, hblt]

theorem lexLe_trans : ∀ as bs cs : List Char,
    lexLe as bs = true → lexLe bs cs = true → lexLe as cs = true := by
  intro as
  induction as with
  | nil => intro bs cs _ _; rfl
  | cons a as ih =>
    intro bs cs h1 h2
    cases bs with
    | nil => simp [lexLe] at h1
    | cons b bs =>
      cases cs with
      | nil => simp [lexLe] at h2
      | cons c cs =>
        by_cases hab : a.toNat = b.toNat
        · by_cases hbc : b.toNat = c.toNat
          · have hac : a.toNat = c.toNat := hab.trans hbc
            simp only [lexLe, hab, if_pos] at h1
            simp only [lexLe, hbc, if_pos] at h2
            simp only [lexLe, hac, if_pos]
            exact ih bs cs h1 h2
          · have h2' : b.toNat < c.toNat := by
              by_contra hnot
              simp [lexLe, hbc, hnot] at h2
            have hac : a.toNat ≠ c.toNat := by omega
            have hlt : a.toNat < c.toNat := by omega
            simp [lexLe, hac, hlt]
        · have h1' : a.toNat < b.toNat := by
            by_contra hnot
            simp [lexLe, hab, hnot] at h1
          by_cases hbc : b.toNat = c.toNat
          · have hac : a.toNat ≠ c.toNat := by omega
            have hlt : a.toNat < c.toNat := by omega
            simp [lexLe, hac, hlt]
          · have h2' : b.toNat < c.toNat := by
              by_contra hnot
              simp [lexLe, hbc, hnot] at h2
            have hac : a.toNat ≠ c.toNat := by omega
            have hlt : a.toNat < c.toNat := by omega
            simp [lexLe, hac, hlt]

theorem map_take_drop (f : String → Detail) (k : Nat) (x : String) (xs : List String) :
    f x :: (List.map f (xs.take k) ++ List.map f (xs.drop k)) = List.map f (x :: xs) := by
  rw [← List.map_append, List.take_append_drop, List.map_cons]

theorem process_batches_chunksOfAux (f : String → Option Page) (n : Nat) :
    ∀ fuel l : List String, l.length ≤ fuel.length →
      process_batches f (chunksOfAux n fuel l) = l.map (processOne f) := by
  intro fuel
  induction fuel with
  | nil =>
    intro l hl
    have hnil : l = [] := List.eq_nil_of_length_eq_zero (Nat.le_zero.mp hl)
    subst hnil
    rfl
  | cons g fs ih =>
    intro l hl
    cases l with
    | nil => rfl
    | cons x xs =>
      have hlen : (xs.drop (n - 1)).length ≤ fs.length := by
        simp only [List.length_drop]
        simp only [List.length_cons] at hl
        omega
      simp only [chunksOfAux, process_batches, ih (xs.drop (n - 1)) hlen]
      exact map_take_drop (processOne f) (n - 1) x xs

theorem processOne_pid (f : String → Option Page) (pid : String) :
    (processOne f pid).pubmedId = pid := by
  rw [processOne]
  cases hf : f pid with
  | none => rfl
  | some page => cases hd : get_publication_date page <;> simp [hd]

theorem map_processOne_pid (f : String → Option Page) (l : List String) :
    (l.map (processOne f)).map Detail.pubmedId = l := by
  induction l with
  | nil => rfl
  | cons x xs ih => simp [processOne_pid, ih]

/-- Claim C2: `process_pubmed_ids` first deduplicates and sorts the
flattened literature-id multiset, then processes each distinct id exactly
once: the output has exactly one detail record per distinct id, its
`Pubmed_ID` column enumerates `pubmedIdsOf metadata` (a duplicate-free,
ascending list whose members are exactly the flattened ids), and the
batching (hence batch boundaries) is a function of that sorted list. -/
theorem process_pubmed_ids_dedup_sorted :
    ∀ (fetchHtml : String → Option Page) (metadata : List Link) (batchSize : Nat),
      0 < batchSize →
      ((process_pubmed_ids fetchHtml metadata batchSize).map Detail.pubmedId =
        pubmedIdsOf metadata) ∧
      (pubmedIdsOf metadata).Nodup ∧
      List.Sorted (fun a b => strLe a b = true) (pubmedIdsOf metadata) ∧
      (∀ x, x ∈ pubmedIdsOf metadata ↔ x ∈ flattenIds metadata) ∧
      (process_pubmed_ids fetchHtml metadata batchSize).length =
        (pubmedIdsOf metadata).length := by
  intro f md bs _
  have hmap : process_pubmed_ids f md bs = (pubmedIdsOf md).map (processOne f) := by
    rw [process_pubmed_ids, chunksOf]
    exact process_batches_chunksOfAux f bs _ _ (le_refl _)
  have hperm := List.perm_insertionSort (fun a b => strLe a b = true) (flattenIds md).dedup
  refine ⟨by rw [hmap, map_processOne_pid], ?_, ?_, ?_, by rw [hmap, List.length_map]⟩
  · exact hperm.nodup_iff.mpr (List.nodup_dedup _)
  · haveI : IsTotal String (fun a b => strLe a b = true) :=
      ⟨fun a b => lexLe_total a.data b.data⟩
    haveI : IsTrans String (fun a b => strLe a b = true) :=
      ⟨fun a b c h1 h2 => lexLe_trans a.data b.data c.data h1 h2⟩
    exact List.sorted_insertionSort _ _
  · intro x
    rw [pubmedIdsOf, List.mem_insertionSort]
    exact List.mem_dedup

/-- Witness for C2 at batch size 50 on a concrete metadata table with a
duplicated literature id across accessions. -/
theorem process_pubmed_ids_dedup_sorted_witness :
    0 < 50 ∧
    (process_pubmed_ids (fun _ => none) [⟨"GSE1", "123, 45"⟩, ⟨"GSE2", "45"⟩] 50).map
        Detail.pubmedId =
      pubmedIdsOf [⟨"GSE1", "123, 45"⟩, ⟨"GSE2", "45"⟩] :=
  ⟨by decide,
    (process_pubmed_ids_dedup_sorted (fun _ => none)
      [⟨"GSE1", "123, 45"⟩, ⟨"GSE2", "45"⟩] 50 (by decide)).1⟩

theorem flattenIds_append : ∀ a b : List Link,
    flattenIds (a ++ b) = flattenIds a ++ flattenIds b := by
  intro a b
  induction a with
  | nil => rfl
  | cons e rest ih => simp [flattenIds, ih]

/-- Claim C4: `fetch_pubmed_data` retries up to 3 attempts with exponential
backoff (delays 1, 2, 4 time units) on connection-level failures and, on
exhausting all retries, returns a `LiteratureLink` with empty `Pubmed_ID`
for that accession instead of raising; and an accession whose `Pubmed_ID`
is the empty string contributes nothing to the literature-id set that
`process_pubmed_ids` works through. -/
theorem fetch_pubmed_data_retry_exhaustion :
    ∀ (get : Nat → Option String) (extract : String → List String) (acc : String)
      (l1 l2 : List Link),
      (∀ i, i < 3 → get i = none) →
      fetch_pubmed_data get extract acc = (⟨acc, ""⟩, [1, 2, 4]) ∧
      pubmedIdsOf (l1 ++ ⟨acc, ""⟩ :: l2) = pubmedIdsOf (l1 ++ l2) := by
  intro get extract acc l1 l2 h
  constructor
  · have h0 := h 0 (by omega)
    have h1 := h 1 (by omega)
    have h2 := h 2 (by omega)
    simp [fetch_pubmed_data, fetchPMGo, h0, h1, h2]
  · have he : flattenIds (⟨acc, ""⟩ :: l2) = flattenIds l2 := by simp [flattenIds]
    rw [pubmedIdsOf, pubmedIdsOf, flattenIds_append, flattenIds_append, he]

/-- Witness for C4: all three attempts fail on a concrete accession. -/
theorem fetch_pubmed_data_retry_exhaustion_witness :
    fetch_pubmed_data (fun _ => none) (fun _ => []) "GSE1" = (⟨"GSE1", ""⟩, [1, 2, 4]) ∧
    pubmedIdsOf ([] ++ ⟨"GSE1", ""⟩ :: [⟨"GSE2", "7"⟩]) = pubmedIdsOf ([] ++ [⟨"GSE2", "7"⟩]) :=
  fetch_pubmed_data_retry_exhaustion (fun _ => none) (fun _ => []) "GSE1" []
    [⟨"GSE2", "7"⟩] (fun _ _ => rfl)

theorem fetchPMGo_accession (get : Nat → Option String) (extract : String → List String)
    (acc : String) : ∀ r attempt, ((fetchPMGo get extract acc attempt r).1).accession = acc := by
  intro r
  induction r with
  | zero => intro attempt; rfl
  | succ r ih =>
    intro attempt
    rw [fetchPMGo]
    cases hg : get attempt with
    | some html => rfl
    | none =>
      by_cases hr : r = 0
      · subst hr; rfl
      · simp only [if_neg hr]
        exact ih (attempt + 1)

/-- Claim C10: the Literature-Link Fetcher returns exactly one record per
input accession, in input order: mapping the `accession` field over the
output gives back the input list (so the i-th output is tagged with the
i-th input accession), and the lengths agree. -/
theorem fetch_pubmed_ids_from_geo_order :
    ∀ (get : String → Nat → Option String) (extract : String → List String)
      (accs : List String),
      (fetch_pubmed_ids_from_geo get extract accs).map Link.accession = accs ∧
      (fetch_pubmed_ids_from_geo get extract accs).length = accs.length := by
  intro get extract accs
  constructor
  · induction accs with
    | nil => rfl
    | cons a rest ih =>
      simp only [fetch_pubmed_ids_from_geo, List.map_cons] at ih ⊢
      rw [ih,
        show (fetch_pubmed_data (get a) extract a).1.accession = a from
          fetchPMGo_accession (get a) extract a 3 0]
  · rw [fetch_pubmed_ids_from_geo, List.length_map]

/-- Claim C8: `search_geo_accessions` retries a transient failure up to 3
attempts, sleeping the fixed delay 2 before each reissue of the same
request; an unexpected error aborts retries immediately with the empty page
`([], 0)`; exhausting all retries also yields `([], 0)` (after the final
sleep), indistinguishable from "no results"; a success returns its page. -/
theorem search_geo_accessions_error_handling :
    ∀ att : Nat → SOutcome,
      (att 0 = SOutcome.fatal → search_geo_accessions att = (([], 0), [])) ∧
      ((∀ i, i < 3 → att i = SOutcome.transient) →
        search_geo_accessions att = (([], 0), [2, 2, 2])) ∧
      (∀ ids c, att 0 = SOutcome.transient → att 1 = SOutcome.ok ids c →
        search_geo_accessions att = ((ids, c), [2])) ∧
      (∀ ids c, att 0 = SOutcome.ok ids c → search_geo_accessions att = ((ids, c), [])) := by
  intro att
  refine ⟨?_, ?_, ?_, ?_⟩
  · intro h
    simp [search_geo_accessions, searchGo, h]
  · intro h
    have h0 := h 0 (by omega)
    have h1 := h 1 (by omega)
    have h2 := h 2 (by omega)
    simp [search_geo_accessions, searchGo, h0, h1, h2]
  · intro ids c h0 h1
    simp [search_geo_accessions, searchGo, h0, h1]
  · intro ids c h0
    simp [search_geo_accessions, searchGo, h0]

/-- Witness for C8: an unexpected error on the first attempt returns the
empty page with no sleeps. -/
theorem search_geo_accessions_error_handling_witness :
    search_geo_accessions (fun _ => SOutcome.fatal) = (([], 0), []) :=
  (search_geo_accessions_error_handling (fun _ => SOutcome.fatal)).1 rfl

theorem fetch_all_fuel (search : Nat → List String × Nat)
    (resolve : List String → List String) (P T : Nat)
    (hstab : ∀ off, (search off).2 = T) :
    ∀ (fuel retstart : Nat) (acc : List String), T ≤ retstart + fuel * P →
      (fetch_all_geo_accessions search resolve P (fuel + 1) retstart acc).isSome = true := by
  intro fuel
  induction fuel with
  | zero =>
    intro retstart acc hT
    rw [fetch_all_geo_accessions]
    by_cases hempty : (search retstart).1.isEmpty
    · simp [hempty]
    · have hle : (search retstart).2 ≤ retstart + P := by
        rw [hstab]
        omega
      simp [hempty, hle]
  | succ fuel ih =>
    intro retstart acc hT
    rw [fetch_all_geo_accessions]
    by_cases hempty : (search retstart).1.isEmpty
    · simp [hempty]
    · by_cases hle : (search retstart).2 ≤ retstart + P
      · simp [hempty, hle]
      · simp only [hempty, hle, Bool.false_eq_true, if_false, if_neg hle]
        apply ih (retstart + P)
        rw [Nat.succ_mul] at hT
        omega

/-- Claim C3: under a stable reported `totalCount = T` and positive page
size `P`, the paginator's driving loop of `fetch_all_geo_accessions`
terminates within `⌈T / P⌉ + 1` iterations (it returns `some` given that
much fuel); in particular when the first page's id list is empty — the
authoritative terminal signal, covering `totalCount = 0` with non-empty
pages via the offset check — one iteration suffices. -/
theorem fetch_all_geo_accessions_terminates :
    ∀ (search : Nat → List String × Nat) (resolve : List String → List String)
      (P T : Nat), 0 < P → (∀ off, (search off).2 = T) →
      (fetch_all_geo_accessions search resolve P ((T + P - 1) / P + 1) 0 []).isSome = true ∧
      ((search 0).1 = [] →
        fetch_all_geo_accessions search resolve P 1 0 [] = some []) := by
  intro search resolve P T hP hstab
  constructor
  · apply fetch_all_fuel search resolve P T hstab
    have hdm := Nat.div_add_mod' (T + P - 1) P
    have hmod := Nat.mod_lt (T + P - 1) hP
    generalize hX : (T + P - 1) / P * P = X at hdm ⊢
    generalize hr : (T + P - 1) % P = r at hdm hmod
    omega
  · intro hnil
    rw [fetch_all_geo_accessions]
    simp [hnil]

/-- Witness for C3: a search that reports `totalCount = 250` on every page
with page size 100 terminates within `⌈250/100⌉ + 1 = 4` iterations. -/
theorem fetch_all_geo_accessions_terminates_witness :
    0 < 100 ∧
    (fetch_all_geo_accessions (fun _ => (["900001"], 250)) (fun l => l) 100
      ((250 + 100 - 1) / 100 + 1) 0 []).isSome = true :=
  ⟨by decide,
    (fetch_all_geo_accessions_terminates (fun _ => (["900001"], 250)) (fun l => l)
      100 250 (by decide) (fun _ => rfl)).1⟩

/-- Claim C9 (code bug): when the search returns 0 identifiers on the first
page, the run does NOT complete.  All upstream stages do produce empty
tables, but `pd.DataFrame(process_pubmed_ids(metadata))` built from an
empty record list has no columns, so `filter_nct` raises
`KeyError: 'Publication_Date'` when it reads `df["Publication_Date"]`
(app.py line 170), and the handler aborts before the export step — contrary
to the claim that the pipeline reaches the final export with empty tables
and no error raised. -/
theorem run_search_handler_empty_search_keyerror :
    ∀ (resolve : List String → List String) (linkGet : String → Nat → Option String)
      (extract : String → List String) (fetchHtml : String → Option Page)
      (sd ed : PyDate) (fuel : Nat),
      run_search_handler "cancer" (fun _ _ => SOutcome.ok [] 0) resolve linkGet extract
        fetchHtml sd ed (fuel + 1) = Except.error "KeyError: Publication_Date" := by
  intro resolve linkGet extract fetchHtml sd ed fuel
  rfl
